import Mathlib

set_option linter.unnecessarySeqFocus false

/-
  Verification of the MCP-Client-App-for-Azure client-side synchronization
  protocol, as implemented in the React client.

  Shallow embedding of:
  - src/client/src/types/index.ts                 (data model)
  - src/client/src/components/ChatInterface.tsx   (generation controller +
    approval coordinator reducers)
  - MainLayout component (src/unnamed/part_000)   (session / server & tool
    registry reducers, toSnake / toCamel key mapping)
  - MCPServerManager component (src/unnamed/part_001) (server registration
    form, status re-requests)

  React state setters are modelled as pure state transitions; `socket.emit`
  calls are collected as a list of emitted channel events.  Component props
  (the displayed session, the Azure config, socket presence) are modelled as
  a fixed context record, since they do not change while a handler runs.
-/

namespace MCPClient

/-! Data model, translated from src/client/src/types/index.ts.
    Optional fields become `Option`; `any`-typed payloads that the protocol
    never inspects (tool parameters, approval arguments) are carried as
    opaque strings; `Date` timestamps are carried as naturals. -/

structure MCPServerConfig where
  id : Option String
  name : String
  transport : String
  command : Option String
  args : List String
  env : List (String × String)
  url : Option String
  headers : List (String × String)
deriving DecidableEq, Repr

structure MCPTool where
  name : String
  description : String
  parameters : String
  serverId : String
  serverName : Option String
deriving DecidableEq, Repr

structure ChatMessage where
  role : String
  content : String
  timestamp : Nat
  toolCalls : List String
deriving DecidableEq, Repr

structure ChatSession where
  id : String
  name : String
  messages : List ChatMessage
  createdAt : Nat
  updatedAt : Nat
  autoApproveAll : Bool
deriving DecidableEq, Repr

structure AzureConfig where
  endpoint : String
  apiKey : Option String
  deployment : String
  apiVersion : Option String
  systemPrompt : Option String
  temperature : Option Int
  topP : Option Int
  maxTokens : Option Int
deriving DecidableEq, Repr

structure ApprovalRequest where
  id : String
  arguments : String
  name : String
  server_label : String
deriving DecidableEq, Repr

structure SelectedTool where
  id : String
  serverId : String
  serverName : Option String
  name : String
  description : String
  parameters : String
deriving DecidableEq, Repr

/-- Dialog-based approval state of ChatInterface
    (the `approvalRequest` useState, lines 58-62). -/
structure DialogApproval where
  sessionId : String
  approvalRequest : ApprovalRequest
  responseId : String
deriving DecidableEq, Repr

/-! A JS `Record<string, boolean>` as a shadowing association list:
    `{ ...prev, [k]: v }` is modelled as prepending `(k, v)`, and property
    access as first-match lookup (equivalent lookup semantics). -/

def recordGet : List (String × Bool) → String → Option Bool
  | [], _ => none
  | (a, b) :: m, k => if a = k then some b else recordGet m k

def recordSet (m : List (String × Bool)) (k : String) (v : Bool) :
    List (String × Bool) :=
  (k, v) :: m

/-! Channel events emitted by the client (socket.emit calls). -/

inductive Emit where
  | approvalResult (id : String) (approved : Bool) (approveAll : Bool)
  | approveToolCall (sessionId : String) (approvalRequestId : String)
      (approved : Bool) (approveAll : Bool)
  | sendMessage (sessionId : String) (message : String)
      (selectedTools : List SelectedTool) (azureConfig : AzureConfig)
  | stopGeneration (sessionId : String)
  | getMCPServerTools (serverId : String)
  | getMCPServerStatus (key : String)
  | registerMCPServer (config : MCPServerConfig)
deriving DecidableEq, Repr

/-! ChatInterface component (src/client/src/components/ChatInterface.tsx). -/

/-- Props of ChatInterface plus socket presence (lines 40-52). -/
structure ChatProps where
  session : ChatSession
  azureConfig : Option AzureConfig
  hasSocket : Bool
deriving DecidableEq, Repr

/-- The useState-held component state of ChatInterface (lines 53-67). -/
structure ChatState where
  message : String
  selectedTools : List SelectedTool
  isLoading : Bool
  errorMessage : Option String
  approvalRequest : Option DialogApproval
  pendingApproval : Option ApprovalRequest
  pendingToolNames : List String
  alwaysApproveSessions : List (String × Bool)
deriving DecidableEq, Repr

/-- Line 35-38: `if (!config) return true; return !config.endpoint || !config.deployment;`
    (JS falsiness of a typed string is emptiness). -/
def isChatInterfaceAzureConfigEffectivelyMissing : Option AzureConfig → Bool
  | none => true
  | some c => c.endpoint = "" || c.deployment = ""

/-- Line 70: `alwaysApproveSessions[session.id] || session.autoApproveAll || false`. -/
def alwaysApprove (props : ChatProps) (st : ChatState) : Bool :=
  (recordGet st.alwaysApproveSessions props.session.id).getD false
    || props.session.autoApproveAll

/-- Incoming channel events handled by ChatInterface (lines 76-113). -/
inductive ChatEvent where
  | messageResponse
  | toolStarted (sessionId : String) (toolName : String)
  | approvalRequired (req : ApprovalRequest)
  | errorEvent (message : String)
deriving DecidableEq, Repr

/-- The socket handlers of ChatInterface, lines 79-105.  Handlers are only
    installed when a socket exists (line 77 `if (!socket) return`), so
    without a socket every event is a no-op.  The 5-second timeout clearing
    `errorMessage` is not modelled (real time). -/
def chatEventStep (props : ChatProps) (st : ChatState) (e : ChatEvent) :
    ChatState × List Emit :=
  if props.hasSocket then
    match e with
    | .messageResponse =>
        ({ st with isLoading := false, pendingToolNames := [] }, [])
    | .toolStarted sid tname =>
        if sid ≠ props.session.id then (st, [])
        else ({ st with pendingToolNames := st.pendingToolNames ++ [tname] }, [])
    | .approvalRequired req =>
        if alwaysApprove props st then
          (st, [Emit.approvalResult req.id true true])
        else
          ({ st with pendingApproval := some req }, [])
    | .errorEvent msg =>
        ({ st with isLoading := false, errorMessage := some msg }, [])
  else (st, [])

/-- Lines 130-151 `handleSendMessage`. -/
def handleSendMessage (props : ChatProps) (st : ChatState) :
    ChatState × List Emit :=
  if isChatInterfaceAzureConfigEffectivelyMissing props.azureConfig then
    (st, [])
  else
    match props.azureConfig with
    | none => (st, [])
    | some cfg =>
        if st.message.trim = "" ∨ props.hasSocket = false then (st, [])
        else
          ({ st with isLoading := true, errorMessage := none, message := "" },
           [Emit.sendMessage props.session.id st.message.trim st.selectedTools cfg])

/-- Lines 180-195 `handleApproval` (dialog driven by `approvalRequest`). -/
def handleApproval (props : ChatProps) (st : ChatState)
    (approved : Bool) (approveAll : Bool) : ChatState × List Emit :=
  match st.approvalRequest with
  | none => (st, [])
  | some ar =>
      if props.hasSocket then
        let st1 :=
          if approveAll then
            { st with alwaysApproveSessions :=
                recordSet st.alwaysApproveSessions props.session.id true }
          else st
        ({ st1 with approvalRequest := none, isLoading := true },
         [Emit.approveToolCall ar.sessionId ar.approvalRequest.id approved approveAll])
      else (st, [])

/-- Lines 197-204 `sendApproval` (dialog driven by `pendingApproval`). -/
def sendApproval (props : ChatProps) (st : ChatState)
    (approved : Bool) (approveAll : Bool) : ChatState × List Emit :=
  match st.pendingApproval with
  | none => (st, [])
  | some pa =>
      if props.hasSocket then
        let st1 :=
          if approveAll then
            { st with alwaysApproveSessions :=
                recordSet st.alwaysApproveSessions props.session.id true }
          else st
        ({ st1 with pendingApproval := none },
         [Emit.approvalResult pa.id approved approveAll])
      else (st, [])

/-- Lines 206-211 `handleStopGeneration`. -/
def handleStopGeneration (props : ChatProps) (st : ChatState) :
    ChatState × List Emit :=
  if props.hasSocket then
    ({ st with isLoading := false, pendingToolNames := [] },
     [Emit.stopGeneration props.session.id])
  else (st, [])

/-- Lines 160-178 `handleToolSelection`: the selected-tool entry built at
    lines 162-172. -/
def selectedToolOfTool (tool : MCPTool) : SelectedTool :=
  { id := tool.serverId ++ "-" ++ tool.name
    serverId := tool.serverId
    serverName := tool.serverName
    name := tool.name
    description := tool.description
    parameters := tool.parameters }

def handleToolSelection (st : ChatState) (tool : MCPTool) (selected : Bool) :
    ChatState :=
  if selected then
    { st with selectedTools := st.selectedTools ++ [selectedToolOfTool tool] }
  else
    { st with selectedTools :=
        st.selectedTools.filter (fun t => ¬ (t.serverId = tool.serverId ∧ t.name = tool.name)) }

/-- Lines 229-240 `getServerCheckState`. -/
inductive CheckState where
  | unchecked | checked | indeterminate
deriving DecidableEq, Repr

def getServerCheckState (selectedTools : List SelectedTool)
    (serverId : String) (tools : List MCPTool) : CheckState :=
  let sel := selectedTools.filter (fun t => t.serverId = serverId)
  if sel.length = 0 then .unchecked
  else if sel.length = tools.length then .checked
  else .indeterminate

/-- Lines 243-265 `handleServerSelection`. -/
def handleServerSelection (st : ChatState) (serverId : String)
    (tools : List MCPTool) : ChatState :=
  match getServerCheckState st.selectedTools serverId tools with
  | .unchecked | .indeterminate =>
      { st with selectedTools :=
          st.selectedTools.filter (fun t => t.serverId ≠ serverId)
            ++ tools.map selectedToolOfTool }
  | .checked =>
      { st with selectedTools :=
          st.selectedTools.filter (fun t => t.serverId ≠ serverId) }

/-- Lines 120-124: the useEffect pruning `selectedTools` against the
    current `availableTools` prop. -/
def pruneSelectedTools (st : ChatState) (availableTools : List MCPTool) :
    ChatState :=
  { st with selectedTools :=
      st.selectedTools.filter (fun sel =>
        availableTools.any (fun av => av.serverId = sel.serverId ∧ av.name = sel.name)) }

/-- Every state-changing operation of the ChatInterface component: incoming
    channel events plus the user-triggered handlers at their JSX call sites
    (the approval buttons pass the literal booleans of lines 579-604). -/
inductive ChatStep where
  | event (e : ChatEvent)
  | sendMessageClick
  | stopClick
  | pendingDeny
  | pendingAllow
  | pendingAlwaysAllow
  | dialogDeny
  | dialogExecute
  | dialogAlwaysAllow
  | toolSelect (tool : MCPTool) (selected : Bool)
  | serverSelect (serverId : String) (tools : List MCPTool)
  | pruneSelected (availableTools : List MCPTool)
  | typeMessage (text : String)
deriving DecidableEq, Repr

def chatStep (props : ChatProps) (st : ChatState) : ChatStep → ChatState × List Emit
  | .event e => chatEventStep props st e
  | .sendMessageClick => handleSendMessage props st
  | .stopClick => handleStopGeneration props st
  | .pendingDeny => sendApproval props st false false
  | .pendingAllow => sendApproval props st true false
  | .pendingAlwaysAllow => sendApproval props st true true
  | .dialogDeny => handleApproval props st false false
  | .dialogExecute => handleApproval props st true false
  | .dialogAlwaysAllow => handleApproval props st true true
  | .toolSelect tool sel => (handleToolSelection st tool sel, [])
  | .serverSelect sid tools => (handleServerSelection st sid tools, [])
  | .pruneSelected avail => (pruneSelectedTools st avail, [])
  | .typeMessage s => ({ st with message := s }, [])

def runChatSteps (props : ChatProps) (st : ChatState) : List ChatStep → ChatState
  | [] => st
  | s :: rest => runChatSteps props (chatStep props st s).1 rest

/-! MainLayout component (src/unnamed/part_000). -/

/-- The useState-held state of MainLayout that the channel handlers touch
    (lines 33-36). -/
structure MainState where
  currentSession : Option ChatSession
  sessions : List ChatSession
  mcpServers : List MCPServerConfig
  availableTools : List MCPTool
deriving DecidableEq, Repr

/-- Incoming channel events handled by MainLayout (lines 94-167). -/
inductive MainEvent where
  | sessionCreated (s : ChatSession)
  | sessions (l : List ChatSession)
  | sessionLoaded (s : ChatSession)
  | sessionUpdated (s : ChatSession)
  | mcpServers (servers : List MCPServerConfig)
  | mcpServerRegistered (server : MCPServerConfig)
  | mcpServerTools (serverId : String) (tools : List MCPTool)
  | mcpServerRemoved (serverId : String)
deriving DecidableEq, Repr

/-- Lines 121-125 / 130-132: `if (server.id) socket.emit('getMCPServerTools', server.id)`
    (a string id is truthy when non-empty). -/
def toolsRequest (srv : MCPServerConfig) : Option Emit :=
  match srv.id with
  | some i => if i ≠ "" then some (Emit.getMCPServerTools i) else none
  | none => none

/-- The socket handlers of MainLayout, lines 98-145. -/
def mainStep (st : MainState) : MainEvent → MainState × List Emit
  | .sessionCreated s =>
      ({ st with currentSession := some s, sessions := s :: st.sessions }, [])
  | .sessions l => ({ st with sessions := l }, [])
  | .sessionLoaded s => ({ st with currentSession := some s }, [])
  | .sessionUpdated s =>
      ({ st with
          sessions := st.sessions.map (fun x => if x.id = s.id then s else x),
          currentSession :=
            match st.currentSession with
            | some p => if p.id = s.id then some s else some p
            | none => none }, [])
  | .mcpServers servers =>
      ({ st with mcpServers := servers }, servers.filterMap toolsRequest)
  | .mcpServerRegistered server =>
      ({ st with mcpServers := st.mcpServers ++ [server] },
       (toolsRequest server).toList)
  | .mcpServerTools serverId tools =>
      ({ st with availableTools :=
          st.availableTools.filter (fun t => t.serverId ≠ serverId) ++ tools }, [])
  | .mcpServerRemoved serverId =>
      ({ st with
          mcpServers := st.mcpServers.filter (fun s => s.id ≠ some serverId),
          availableTools :=
            st.availableTools.filter (fun t => t.serverId ≠ serverId) }, [])

/-! MCPServerManager component (src/unnamed/part_001). -/

/-- Lines 324-326 `getServerKey`: `srv.id || srv.name`. -/
def getServerKey (srv : MCPServerConfig) : String :=
  match srv.id with
  | some i => if i ≠ "" then i else srv.name
  | none => srv.name

/-- Lines 311-322 `handleMcpServers`: on a full `mcpServers` list the manager
    re-requests the status of every entry. -/
def managerMcpServersEmits (list : List MCPServerConfig) : List Emit :=
  list.map (fun srv => Emit.getMCPServerStatus (getServerKey srv))

/-- The add-server form: the `newServer` partial config (lines 126-134) plus
    the separate `argsInput` field (line 139). -/
structure ServerForm where
  name : String
  transport : String
  command : String
  argsInput : String
  env : List (String × String)
  url : String
  headers : List (String × String)
deriving DecidableEq, Repr

/-- Lines 162-165: `argsInput.split(' ').map(arg => arg.trim()).filter(arg => arg.length > 0)`. -/
def parseArgs (s : String) : List String :=
  ((s.splitOn " ").map String.trim).filter (fun a => a.length > 0)

/-- The reset form of lines 175-188. -/
def emptyServerForm : ServerForm :=
  { name := "", transport := "stdio", command := "", argsInput := ""
    env := [], url := "", headers := [] }

/-- Lines 159-190 `handleAddServer`: guard `!socket || !newServer.name || !newServer.transport`,
    then a single `registerMCPServer` emission carrying the entered
    configuration (with parsed args), then form reset. -/
def handleAddServer (hasSocket : Bool) (f : ServerForm) : ServerForm × List Emit :=
  if hasSocket = false ∨ f.name = "" ∨ f.transport = "" then (f, [])
  else
    (emptyServerForm,
     [Emit.registerMCPServer
        { id := none, name := f.name, transport := f.transport
          command := some f.command, args := parseArgs f.argsInput
          env := f.env, url := some f.url, headers := f.headers }])

/-! The combined application state: MainLayout plus the mounted
    ChatInterface.  React flushes the ChatInterface useEffect that prunes
    `selectedTools` (ChatInterface.tsx lines 120-124) after the state update
    triggered by a channel event and before the next event or user action,
    so processing `mcpServerRemoved` is modelled as the MainLayout reducer
    followed by that pruning effect on the new `availableTools` prop. -/

structure AppState where
  main : MainState
  chat : ChatState
deriving DecidableEq, Repr

def appMcpServerRemoved (app : AppState) (serverId : String) :
    AppState × List Emit :=
  let m := mainStep app.main (.mcpServerRemoved serverId)
  ({ main := m.1, chat := pruneSelectedTools app.chat m.1.availableTools }, m.2)

/-! The generation-config key mapping at the channel boundary
    (src/unnamed/part_000 lines 401-420).  `toSnake` and `toCamel` take
    untyped JS objects, modelled as association lists of JS values with
    first-match property lookup; a missing property reads as `undefined`. -/

inductive JVal where
  | undef
  | jnull
  | jstr (s : String)
  | jnum (n : Int)
deriving DecidableEq, Repr

abbrev JObj := List (String × JVal)

/-- JS property access: first binding wins, absent keys read as undefined. -/
def jget : JObj → String → JVal
  | [], _ => .undef
  | (a, b) :: o, k => if a = k then b else jget o k

/-- The JS nullish-coalescing operator `a ?? b`. -/
def jcoalesce (a b : JVal) : JVal :=
  match a with
  | .undef => b
  | .jnull => b
  | v => v

/-- Lines 401-410 `toSnake`. -/
def toSnake (cfg : JObj) : JObj :=
  [("endpoint", jget cfg "endpoint"),
   ("api_key", jcoalesce (jget cfg "apiKey") (jget cfg "api_key")),
   ("deployment", jget cfg "deployment"),
   ("api_version", jcoalesce (jget cfg "apiVersion") (jget cfg "api_version")),
   ("system_prompt", jcoalesce (jget cfg "systemPrompt") (jget cfg "system_prompt")),
   ("temperature", if jget cfg "temperature" = .undef then .jstr "" else jget cfg "temperature"),
   ("top_p", jcoalesce (jcoalesce (jget cfg "topP") (jget cfg "top_p")) (.jstr "")),
   ("max_tokens", jcoalesce (jcoalesce (jget cfg "maxTokens") (jget cfg "max_tokens")) (.jstr ""))]

/-- Lines 411-420 `toCamel`. -/
def toCamel (cfg : JObj) : JObj :=
  [("endpoint", jget cfg "endpoint"),
   ("apiKey", jcoalesce (jget cfg "api_key") (jget cfg "apiKey")),
   ("deployment", jget cfg "deployment"),
   ("apiVersion", jcoalesce (jget cfg "api_version") (jget cfg "apiVersion")),
   ("systemPrompt", jcoalesce (jget cfg "system_prompt") (jget cfg "systemPrompt")),
   ("temperature", if jget cfg "temperature" = .jstr "" then .undef else jget cfg "temperature"),
   ("topP", if jget cfg "top_p" = .jstr "" then .undef
            else jcoalesce (jget cfg "top_p") (jget cfg "topP")),
   ("maxTokens", if jget cfg "max_tokens" = .jstr "" then .undef
                 else jcoalesce (jget cfg "max_tokens") (jget cfg "maxTokens"))]

/-- A config object carrying exactly the eight camelCase fields. -/
def mkCamelConfig (e k d v sp t tp mt : JVal) : JObj :=
  [("endpoint", e), ("apiKey", k), ("deployment", d), ("apiVersion", v),
   ("systemPrompt", sp), ("temperature", t), ("topP", tp), ("maxTokens", mt)]

end MCPClient

namespace MCPClient

/-! The approval-resolution operations as invoked in the program: the JSX
    call sites of `sendApproval` (ChatInterface.tsx lines 593, 602-604) and
    of `handleApproval` (lines 579-587), with the literal boolean arguments
    passed there (`approveAll` defaults to false when omitted). -/

inductive ResolutionAction where
  | pendingCloseDeny
  | pendingDeny
  | pendingAllow
  | pendingAlwaysAllow
  | dialogDeny
  | dialogExecute
  | dialogAlwaysAllow
deriving DecidableEq, Repr

def resolutionApproved : ResolutionAction → Bool
  | .pendingCloseDeny => false
  | .pendingDeny => false
  | .pendingAllow => true
  | .pendingAlwaysAllow => true
  | .dialogDeny => false
  | .dialogExecute => true
  | .dialogAlwaysAllow => true

def resolutionRemember : ResolutionAction → Bool
  | .pendingCloseDeny => false
  | .pendingDeny => false
  | .pendingAllow => false
  | .pendingAlwaysAllow => true
  | .dialogDeny => false
  | .dialogExecute => false
  | .dialogAlwaysAllow => true

def applyResolution (props : ChatProps) (st : ChatState) :
    ResolutionAction → ChatState × List Emit
  | .pendingCloseDeny => sendApproval props st false false
  | .pendingDeny => sendApproval props st false false
  | .pendingAllow => sendApproval props st true false
  | .pendingAlwaysAllow => sendApproval props st true true
  | .dialogDeny => handleApproval props st false false
  | .dialogExecute => handleApproval props st true false
  | .dialogAlwaysAllow => handleApproval props st true true

/-! Helper lemmas about the per-session auto-approve policy map. -/

theorem recordGet_set_self (m : List (String × Bool)) (k : String) (v : Bool) :
    recordGet (recordSet m k v) k = some v := by
  simp [recordGet, recordSet]

theorem alwaysApprove_of_sessions_eq (props : ChatProps) {st st' : ChatState}
    (h : st'.alwaysApproveSessions = st.alwaysApproveSessions) :
    alwaysApprove props st' = alwaysApprove props st := by
  simp [alwaysApprove, h]

theorem alwaysApprove_set_self (props : ChatProps) (st : ChatState) :
    alwaysApprove props
      { st with alwaysApproveSessions :=
          recordSet st.alwaysApproveSessions props.session.id true } = true := by
  simp [alwaysApprove, recordGet_set_self]

/-- Every ChatInterface operation either leaves the policy map unchanged or
    upgrades the displayed session's entry to true. -/
theorem chatStep_alwaysApproveSessions (props : ChatProps) (st : ChatState)
    (s : ChatStep) :
    ((chatStep props st s).1).alwaysApproveSessions = st.alwaysApproveSessions ∨
    ((chatStep props st s).1).alwaysApproveSessions =
      recordSet st.alwaysApproveSessions props.session.id true := by
  cases s with
  | event e =>
      cases e <;> simp only [chatStep, chatEventStep] <;> split_ifs <;> simp
  | sendMessageClick =>
      rcases hc : props.azureConfig with _ | cfg <;>
        simp only [chatStep, handleSendMessage, hc] <;> (split_ifs <;> simp)
  | stopClick =>
      simp only [chatStep, handleStopGeneration]
      split_ifs <;> simp
  | pendingDeny =>
      rcases hp : st.pendingApproval with _ | pa <;>
        simp [chatStep, sendApproval, hp] <;> (split_ifs <;> simp)
  | pendingAllow =>
      rcases hp : st.pendingApproval with _ | pa <;>
        simp [chatStep, sendApproval, hp] <;> (split_ifs <;> simp)
  | pendingAlwaysAllow =>
      rcases hp : st.pendingApproval with _ | pa <;>
        simp [chatStep, sendApproval, hp] <;> (split_ifs <;> simp)
  | dialogDeny =>
      rcases hp : st.approvalRequest with _ | ar <;>
        simp [chatStep, handleApproval, hp] <;> (split_ifs <;> simp)
  | dialogExecute =>
      rcases hp : st.approvalRequest with _ | ar <;>
        simp [chatStep, handleApproval, hp] <;> (split_ifs <;> simp)
  | dialogAlwaysAllow =>
      rcases hp : st.approvalRequest with _ | ar <;>
        simp [chatStep, handleApproval, hp] <;> (split_ifs <;> simp)
  | toolSelect tool sel =>
      simp only [chatStep, handleToolSelection]
      split_ifs <;> simp
  | serverSelect sid tools =>
      simp only [chatStep, handleServerSelection]
      rcases getServerCheckState st.selectedTools sid tools <;> simp
  | pruneSelected avail => simp [chatStep, pruneSelectedTools]
  | typeMessage s => simp [chatStep]

/-- The auto-approve flag of the displayed session, once true, stays true
    through every further operation of the component. -/
theorem chatStep_alwaysApprove_mono (props : ChatProps) (st : ChatState)
    (s : ChatStep) (h : alwaysApprove props st = true) :
    alwaysApprove props (chatStep props st s).1 = true := by
  rcases chatStep_alwaysApproveSessions props st s with h1 | h1
  · rw [alwaysApprove_of_sessions_eq props h1]
    exact h
  · simp [alwaysApprove, h1, recordGet_set_self]

theorem runChatSteps_alwaysApprove_mono (props : ChatProps)
    (steps : List ChatStep) (st : ChatState)
    (h : alwaysApprove props st = true) :
    alwaysApprove props (runChatSteps props st steps) = true := by
  induction steps generalizing st with
  | nil => simpa [runChatSteps] using h
  | cons s rest ih =>
      simp only [runChatSteps]
      exact ih _ (chatStep_alwaysApprove_mono props st s h)

end MCPClient
namespace MCPClient

/-! Claim theorems. -/

/-- C1: once an approval request for the displayed session has been resolved
    through the Always-Allow path (`sendApproval(true, true)`, which requires
    a pending request and a socket), every later `approvalRequired` event —
    after any further sequence of component operations — is resolved by
    emitting `approvalResult` with `approved = true` immediately, leaving the
    component state (in particular the pending-approval prompt) untouched:
    the policy flag is applied client-side at the moment of resolution. -/
theorem always_allow_auto_resolves (props : ChatProps) (st : ChatState)
    (hsock : props.hasSocket = true)
    (hpend : st.pendingApproval.isSome = true)
    (steps : List ChatStep) (req : ApprovalRequest) :
    chatEventStep props
        (runChatSteps props (sendApproval props st true true).1 steps)
        (.approvalRequired req)
      = (runChatSteps props (sendApproval props st true true).1 steps,
         [Emit.approvalResult req.id true true]) := by
  have h1 : alwaysApprove props (sendApproval props st true true).1 = true := by
    rcases hp : st.pendingApproval with _ | pa
    · rw [hp] at hpend
      simp at hpend
    · simp only [sendApproval, hp, hsock, if_true]
      exact alwaysApprove_set_self props st
  have h2 := runChatSteps_alwaysApprove_mono props steps _ h1
  simp [chatEventStep, hsock, h2]

/-- C1 witness at a concrete session, state and request. -/
def sessionA : ChatSession :=
  { id := "s1", name := "Session 1", messages := [], createdAt := 0
    updatedAt := 0, autoApproveAll := false }

def props0 : ChatProps :=
  { session := sessionA, azureConfig := none, hasSocket := true }

def reqA : ApprovalRequest :=
  { id := "req-1", arguments := "{}", name := "getForecast", server_label := "weather" }

def reqB : ApprovalRequest :=
  { id := "req-2", arguments := "{}", name := "getForecast", server_label := "weather" }

def chatState0 : ChatState :=
  { message := "", selectedTools := [], isLoading := true, errorMessage := none
    approvalRequest := none, pendingApproval := some reqA
    pendingToolNames := [], alwaysApproveSessions := [] }

theorem always_allow_auto_resolves_witness :
    chatEventStep props0
        (runChatSteps props0 (sendApproval props0 chatState0 true true).1
          [ChatStep.event ChatEvent.messageResponse])
        (.approvalRequired reqB)
      = (runChatSteps props0 (sendApproval props0 chatState0 true true).1
          [ChatStep.event ChatEvent.messageResponse],
         [Emit.approvalResult reqB.id true true]) :=
  always_allow_auto_resolves props0 chatState0 rfl rfl
    [ChatStep.event ChatEvent.messageResponse] reqB

/-- C2: a `sessionUpdated(S)` event always replaces the session-list entry
    whose identifier is S's (leaving other entries in place), and replaces
    the displayed current session by S exactly when a session is displayed
    and its identifier equals S's; an update for a background session never
    alters the displayed session, and no session appears when none was
    displayed. -/
theorem session_updated_replace (st : MainState) (s : ChatSession) :
    (∀ x ∈ ((mainStep st (.sessionUpdated s)).1).sessions, x.id = s.id → x = s) ∧
    (∀ x ∈ st.sessions, x.id ≠ s.id → x ∈ ((mainStep st (.sessionUpdated s)).1).sessions) ∧
    (∀ p, st.currentSession = some p → p.id = s.id →
       ((mainStep st (.sessionUpdated s)).1).currentSession = some s) ∧
    (∀ p, st.currentSession = some p → p.id ≠ s.id →
       ((mainStep st (.sessionUpdated s)).1).currentSession = some p) ∧
    (st.currentSession = none →
       ((mainStep st (.sessionUpdated s)).1).currentSession = none) := by
  refine ⟨?_, ?_, ?_, ?_, ?_⟩
  · intro x hx hid
    simp only [mainStep, List.mem_map] at hx
    obtain ⟨a, _, hfa⟩ := hx
    by_cases h : a.id = s.id
    · simp [h] at hfa
      exact hfa.symm
    · simp [h] at hfa
      subst hfa
      exact absurd hid h
  · intro x hx hne
    simp only [mainStep, List.mem_map]
    exact ⟨x, hx, by simp [hne]⟩
  · intro p hp hid
    simp [mainStep, hp, hid]
  · intro p hp hne
    simp [mainStep, hp, hne]
  · intro h
    simp [mainStep, h]

def sessionA2 : ChatSession :=
  { id := "s1", name := "Session 1 (renamed)", messages := [], createdAt := 0
    updatedAt := 5, autoApproveAll := false }

def mainState0 : MainState :=
  { currentSession := some sessionA, sessions := [sessionA]
    mcpServers := [], availableTools := [] }

theorem session_updated_replace_witness :
    ((mainStep mainState0 (.sessionUpdated sessionA2)).1).currentSession
      = some sessionA2 :=
  (session_updated_replace mainState0 sessionA2).2.2.1 sessionA rfl rfl

/-- C3: with a socket present, `handleStopGeneration` unconditionally sets
    the local generation state to Idle (isLoading false) and empties the
    pending-tool-name list while emitting the best-effort `stopGeneration`
    request, and invoking it when the state is already Idle with no pending
    tools leaves the state exactly as it was (safe / idempotent). -/
theorem stop_generation_idle (props : ChatProps) (st : ChatState)
    (hsock : props.hasSocket = true) :
    (handleStopGeneration props st).1.isLoading = false ∧
    (handleStopGeneration props st).1.pendingToolNames = [] ∧
    (handleStopGeneration props st).2 = [Emit.stopGeneration props.session.id] ∧
    (st.isLoading = false → st.pendingToolNames = [] →
       (handleStopGeneration props st).1 = st) := by
  refine ⟨?_, ?_, ?_, ?_⟩
  · simp [handleStopGeneration, hsock]
  · simp [handleStopGeneration, hsock]
  · simp [handleStopGeneration, hsock]
  · intro h1 h2
    cases st
    simp_all [handleStopGeneration, hsock]

theorem stop_generation_idle_witness :
    (handleStopGeneration props0 chatState0).1.isLoading = false ∧
    (handleStopGeneration props0 chatState0).1.pendingToolNames = [] :=
  ⟨(stop_generation_idle props0 chatState0 rfl).1,
   (stop_generation_idle props0 chatState0 rfl).2.1⟩

/-- C4: processing `mcpServerRemoved(id)` removes, in the same transition,
    the server with that identifier from the server list and every tool the
    server owned from the available-tools list (tools of other servers are
    kept), and — after the pruning effect that React flushes in the same
    step — every remaining entry of the selected-tools set still references
    a (serverId, name) present in the available tools, so no stale selection
    survives. -/
theorem server_removed_atomic (app : AppState) (serverId : String) :
    (∀ srv ∈ ((appMcpServerRemoved app serverId).1).main.mcpServers,
       srv.id ≠ some serverId) ∧
    (∀ t ∈ ((appMcpServerRemoved app serverId).1).main.availableTools,
       t.serverId ≠ serverId) ∧
    (∀ t ∈ app.main.availableTools, t.serverId ≠ serverId →
       t ∈ ((appMcpServerRemoved app serverId).1).main.availableTools) ∧
    (∀ sel ∈ ((appMcpServerRemoved app serverId).1).chat.selectedTools,
       ∃ t ∈ ((appMcpServerRemoved app serverId).1).main.availableTools,
         t.serverId = sel.serverId ∧ t.name = sel.name) := by
  refine ⟨?_, ?_, ?_, ?_⟩
  · intro srv hsrv
    simp [appMcpServerRemoved, mainStep, List.mem_filter] at hsrv
    exact hsrv.2
  · intro t ht
    simp [appMcpServerRemoved, mainStep, List.mem_filter] at ht
    exact ht.2
  · intro t ht hne
    simp [appMcpServerRemoved, mainStep, List.mem_filter]
    exact ⟨ht, hne⟩
  · intro sel hsel
    simp only [appMcpServerRemoved, pruneSelectedTools, List.mem_filter] at hsel
    obtain ⟨-, hany⟩ := hsel
    simp only [List.any_eq_true, decide_eq_true_eq] at hany
    obtain ⟨t, htmem, h1, h2⟩ := hany
    exact ⟨t, htmem, h1, h2⟩

end MCPClient
namespace MCPClient

def toolB : MCPTool :=
  { name := "getAlerts", description := "", parameters := "{}"
    serverId := "srv-2", serverName := some "alerts" }

def appState0 : AppState :=
  { main :=
      { currentSession := some sessionA, sessions := [sessionA]
        mcpServers :=
          [{ id := some "srv-1", name := "weather", transport := "stdio"
             command := some "npx", args := [], env := [], url := none, headers := [] },
           { id := some "srv-2", name := "alerts", transport := "http"
             command := none, args := [], env := [], url := some "http://a", headers := [] }]
        availableTools :=
          [{ name := "getForecast", description := "", parameters := "{}"
             serverId := "srv-1", serverName := some "weather" }, toolB] }
    chat := chatState0 }

theorem server_removed_atomic_witness :
    toolB ∈ ((appMcpServerRemoved appState0 "srv-1").1).main.availableTools :=
  (server_removed_atomic appState0 "srv-1").2.2.1 toolB (by decide) (by decide)

/-- C5: if the generation config is effectively missing (no config, or an
    empty endpoint or deployment), `handleSendMessage` emits nothing on the
    channel and leaves the component state — in particular `isLoading` —
    exactly as it was: a local precondition evaluated before any emission. -/
theorem send_message_missing_config (props : ChatProps) (st : ChatState)
    (h : isChatInterfaceAzureConfigEffectivelyMissing props.azureConfig = true) :
    handleSendMessage props st = (st, []) := by
  simp [handleSendMessage, h]

def propsMissingDeployment : ChatProps :=
  { session := sessionA
    azureConfig := some
      { endpoint := "https://example.openai.azure.com", apiKey := none
        deployment := "", apiVersion := none, systemPrompt := none
        temperature := none, topP := none, maxTokens := none }
    hasSocket := true }

theorem send_message_missing_config_witness :
    handleSendMessage propsMissingDeployment chatState0 = (chatState0, []) :=
  send_message_missing_config propsMissingDeployment chatState0 (by decide)

/-- C6: the pending-tool-name list is maintained for the displayed session
    only — a `toolStarted` event whose sessionId differs from the displayed
    session's identifier leaves the component state entirely unchanged and
    emits nothing — while every terminal `messageResponse` event clears the
    pending-tool-name list and returns the generation state to Idle. -/
theorem pending_tools_per_session (props : ChatProps) (st : ChatState)
    (sid tname : String) (hsock : props.hasSocket = true) :
    (sid ≠ props.session.id →
       chatEventStep props st (.toolStarted sid tname) = (st, [])) ∧
    chatEventStep props st .messageResponse
      = ({ st with isLoading := false, pendingToolNames := [] }, []) := by
  constructor
  · intro h
    simp [chatEventStep, hsock, h]
  · simp [chatEventStep, hsock]

theorem pending_tools_per_session_witness :
    chatEventStep props0 chatState0 (.toolStarted "s2" "getForecast")
      = (chatState0, []) :=
  (pending_tools_per_session props0 chatState0 "s2" "getForecast" rfl).1 (by decide)

/-- C7: a full `mcpServers` list event replaces the local server set
    wholesale with the received list (independently of the previous set, no
    diffing; the tool cache is not touched by this event), MainLayout
    re-requests the tool list of exactly the received entries that carry a
    non-empty identifier, and MCPServerManager re-requests the status of
    every received entry. -/
theorem mcp_servers_wholesale (st : MainState) (servers : List MCPServerConfig) :
    ((mainStep st (.mcpServers servers)).1).mcpServers = servers ∧
    ((mainStep st (.mcpServers servers)).1).availableTools = st.availableTools ∧
    (∀ srv ∈ servers, ∀ i, srv.id = some i → i ≠ "" →
       Emit.getMCPServerTools i ∈ (mainStep st (.mcpServers servers)).2) ∧
    (∀ e ∈ (mainStep st (.mcpServers servers)).2,
       ∃ srv ∈ servers, ∃ i, srv.id = some i ∧ i ≠ "" ∧
         e = Emit.getMCPServerTools i) ∧
    (∀ srv ∈ servers,
       Emit.getMCPServerStatus (getServerKey srv) ∈ managerMcpServersEmits servers) := by
  refine ⟨rfl, rfl, ?_, ?_, ?_⟩
  · intro srv hsrv i hi hne
    simp only [mainStep, List.mem_filterMap]
    exact ⟨srv, hsrv, by simp [toolsRequest, hi, hne]⟩
  · intro e he
    simp only [mainStep, List.mem_filterMap] at he
    obtain ⟨srv, hsrv, hf⟩ := he
    rcases hid : srv.id with _ | i
    · simp [toolsRequest, hid] at hf
    · by_cases hne : i = ""
      · simp [toolsRequest, hid, hne] at hf
      · simp [toolsRequest, hid, hne] at hf
        exact ⟨srv, hsrv, i, hid, hne, hf.symm⟩
  · intro srv hsrv
    simp only [managerMcpServersEmits, List.mem_map]
    exact ⟨srv, hsrv, rfl⟩

def serversList0 : List MCPServerConfig :=
  [{ id := some "srv-1", name := "weather", transport := "stdio"
     command := some "npx", args := [], env := [], url := none, headers := [] }]

theorem mcp_servers_wholesale_witness :
    Emit.getMCPServerTools "srv-1" ∈ (mainStep mainState0 (.mcpServers serversList0)).2 :=
  (mcp_servers_wholesale mainState0 serversList0).2.2.1
    { id := some "srv-1", name := "weather", transport := "stdio"
      command := some "npx", args := [], env := [], url := none, headers := [] }
    (by decide) "srv-1" rfl (by decide)

/-- C8: no denial resolution occurring in the program (all deny call sites
    pass `rememberForSession = false`) changes the per-session auto-approve
    policy map at all, and a resolution changes the policy entry of any
    session only when it is an Always-Allow resolution, i.e. one with
    `approved = true` and `rememberForSession = true`. -/
theorem denial_never_upgrades (props : ChatProps) (st : ChatState)
    (a : ResolutionAction) :
    (resolutionApproved a = false →
       ((applyResolution props st a).1).alwaysApproveSessions
         = st.alwaysApproveSessions) ∧
    (∀ sid, recordGet ((applyResolution props st a).1).alwaysApproveSessions sid
         ≠ recordGet st.alwaysApproveSessions sid →
       resolutionApproved a = true ∧ resolutionRemember a = true) := by
  have hsend : ∀ approved : Bool,
      ((sendApproval props st approved false).1).alwaysApproveSessions
        = st.alwaysApproveSessions := by
    intro approved
    rcases hp : st.pendingApproval with _ | pa <;>
      simp [sendApproval, hp] <;> (split_ifs <;> simp)
  have hdialog : ∀ approved : Bool,
      ((handleApproval props st approved false).1).alwaysApproveSessions
        = st.alwaysApproveSessions := by
    intro approved
    rcases hp : st.approvalRequest with _ | ar <;>
      simp [handleApproval, hp] <;> (split_ifs <;> simp)
  cases a with
  | pendingCloseDeny =>
      exact ⟨fun _ => hsend false, fun sid h => absurd (by rw [applyResolution, hsend false]) h⟩
  | pendingDeny =>
      exact ⟨fun _ => hsend false, fun sid h => absurd (by rw [applyResolution, hsend false]) h⟩
  | pendingAllow =>
      exact ⟨fun h => by simp [resolutionApproved] at h,
             fun sid h => absurd (by rw [applyResolution, hsend true]) h⟩
  | pendingAlwaysAllow =>
      exact ⟨fun h => by simp [resolutionApproved] at h, fun sid _ => ⟨rfl, rfl⟩⟩
  | dialogDeny =>
      exact ⟨fun _ => hdialog false, fun sid h => absurd (by rw [applyResolution, hdialog false]) h⟩
  | dialogExecute =>
      exact ⟨fun h => by simp [resolutionApproved] at h,
             fun sid h => absurd (by rw [applyResolution, hdialog true]) h⟩
  | dialogAlwaysAllow =>
      exact ⟨fun h => by simp [resolutionApproved] at h, fun sid _ => ⟨rfl, rfl⟩⟩

theorem denial_never_upgrades_witness :
    ((applyResolution props0 chatState0 ResolutionAction.pendingDeny).1).alwaysApproveSessions
      = chatState0.alwaysApproveSessions :=
  (denial_never_upgrades props0 chatState0 ResolutionAction.pendingDeny).1 rfl

/-- C9: `handleAddServer` is blocked locally when the entered server name is
    empty or the transport kind is missing — nothing is emitted and the form
    is untouched — and with a socket, a non-empty name and a transport it
    emits exactly one `registerMCPServer` event carrying the entered
    configuration (with the args string parsed into tokens) and resets the
    form. -/
theorem add_server_validation (hasSocket : Bool) (f : ServerForm) :
    ((f.name = "" ∨ f.transport = "") → handleAddServer hasSocket f = (f, [])) ∧
    (hasSocket = true → f.name ≠ "" → f.transport ≠ "" →
       handleAddServer hasSocket f =
         (emptyServerForm,
          [Emit.registerMCPServer
             { id := none, name := f.name, transport := f.transport
               command := some f.command, args := parseArgs f.argsInput
               env := f.env, url := some f.url, headers := f.headers }])) := by
  constructor
  · intro h
    rcases h with h | h <;> simp [handleAddServer, h]
  · intro hs h1 h2
    simp [handleAddServer, hs, h1, h2]

def formWeather : ServerForm :=
  { name := "weather", transport := "stdio", command := "npx"
    argsInput := "  -y weather-server  ", env := [], url := "", headers := [] }

theorem add_server_validation_witness :
    handleAddServer true formWeather =
      (emptyServerForm,
       [Emit.registerMCPServer
          { id := none, name := "weather", transport := "stdio"
            command := some "npx", args := parseArgs formWeather.argsInput
            env := [], url := some "", headers := [] }]) :=
  (add_server_validation true formWeather).2 rfl (by decide) (by decide)

end MCPClient
namespace MCPClient

/-! Helper lemmas for the toSnake / toCamel round trip. -/

theorem jcoalesce_undef_undef (x : JVal) (hx : x ≠ JVal.jnull) :
    jcoalesce (jcoalesce x .undef) .undef = x := by
  cases x <;> simp_all [jcoalesce]

theorem temperature_round (t : JVal) (ht : t ≠ JVal.jstr "") :
    (if (if t = JVal.undef then JVal.jstr "" else t) = JVal.jstr ""
       then JVal.undef else (if t = JVal.undef then JVal.jstr "" else t)) = t := by
  by_cases h : t = JVal.undef <;> simp [h, ht]

theorem optional_round (x : JVal)
    (hx : x = JVal.undef ∨ (x ≠ JVal.jnull ∧ x ≠ JVal.jstr "")) :
    (if jcoalesce (jcoalesce x JVal.undef) (JVal.jstr "") = JVal.jstr ""
       then JVal.undef
       else jcoalesce (jcoalesce (jcoalesce x JVal.undef) (JVal.jstr "")) JVal.undef) = x := by
  rcases hx with rfl | ⟨h1, h2⟩
  · simp [jcoalesce]
  · cases x <;> simp_all [jcoalesce]

/-- The composite of the two boundary mappings on a camelCase-only config,
    with every property lookup evaluated. -/
theorem toCamel_toSnake_explicit (e k d v sp t tp mt : JVal) :
    toCamel (toSnake (mkCamelConfig e k d v sp t tp mt)) =
      [("endpoint", e),
       ("apiKey", jcoalesce (jcoalesce k .undef) .undef),
       ("deployment", d),
       ("apiVersion", jcoalesce (jcoalesce v .undef) .undef),
       ("systemPrompt", jcoalesce (jcoalesce sp .undef) .undef),
       ("temperature",
         if (if t = JVal.undef then JVal.jstr "" else t) = JVal.jstr ""
           then JVal.undef else (if t = JVal.undef then JVal.jstr "" else t)),
       ("topP",
         if jcoalesce (jcoalesce tp JVal.undef) (JVal.jstr "") = JVal.jstr ""
           then JVal.undef
           else jcoalesce (jcoalesce (jcoalesce tp JVal.undef) (JVal.jstr "")) JVal.undef),
       ("maxTokens",
         if jcoalesce (jcoalesce mt JVal.undef) (JVal.jstr "") = JVal.jstr ""
           then JVal.undef
           else jcoalesce (jcoalesce (jcoalesce mt JVal.undef) (JVal.jstr "")) JVal.undef)] :=
  rfl

/-- C10 counterexample: a camelCase config whose `apiKey` is JS `null`
    satisfies the claim's side conditions (temperature, topP and maxTokens
    all absent), yet `toCamel (toSnake cfg)` does not agree with `cfg` on
    the `apiKey` field — the nullish-coalescing chains collapse `null` to
    `undefined`.  The same happens to a `null` `topP` or `maxTokens`, which
    the `?? ''` fallbacks collapse to `''` and then to absent. -/
def nullKeyConfig : JObj :=
  mkCamelConfig (.jstr "https://example") .jnull (.jstr "gpt-4o")
    .undef .undef .undef .undef .undef

theorem round_trip_null_counterexample :
    (jget nullKeyConfig "temperature" = JVal.undef ∧
     jget nullKeyConfig "topP" = JVal.undef ∧
     jget nullKeyConfig "maxTokens" = JVal.undef) ∧
    jget (toCamel (toSnake nullKeyConfig)) "apiKey" ≠ jget nullKeyConfig "apiKey" := by
  decide

/-- C10 (amended): for a config over the eight camelCase fields in which
    apiKey, apiVersion and systemPrompt are not JS null, temperature is
    either absent or a value other than the empty string, and topP and
    maxTokens are each either absent or a non-null value other than the
    empty string, `toCamel (toSnake cfg)` agrees with `cfg` on all eight
    fields, with an absent temperature / topP / maxTokens mapped to the
    empty string by `toSnake` and restored to absent by `toCamel`. -/
theorem camel_snake_round_trip (e k d v sp t tp mt : JVal)
    (hk : k ≠ JVal.jnull) (hv : v ≠ JVal.jnull) (hsp : sp ≠ JVal.jnull)
    (ht : t ≠ JVal.jstr "")
    (htp : tp = JVal.undef ∨ (tp ≠ JVal.jnull ∧ tp ≠ JVal.jstr ""))
    (hmt : mt = JVal.undef ∨ (mt ≠ JVal.jnull ∧ mt ≠ JVal.jstr "")) :
    toCamel (toSnake (mkCamelConfig e k d v sp t tp mt))
        = mkCamelConfig e k d v sp t tp mt ∧
    (t = JVal.undef →
       jget (toSnake (mkCamelConfig e k d v sp t tp mt)) "temperature" = JVal.jstr "") ∧
    (tp = JVal.undef →
       jget (toSnake (mkCamelConfig e k d v sp t tp mt)) "top_p" = JVal.jstr "") ∧
    (mt = JVal.undef →
       jget (toSnake (mkCamelConfig e k d v sp t tp mt)) "max_tokens" = JVal.jstr "") := by
  refine ⟨?_, ?_, ?_, ?_⟩
  · rw [toCamel_toSnake_explicit, jcoalesce_undef_undef k hk,
        jcoalesce_undef_undef v hv, jcoalesce_undef_undef sp hsp,
        temperature_round t ht, optional_round tp htp, optional_round mt hmt]
    rfl
  · intro h
    subst h
    rfl
  · intro h
    subst h
    rfl
  · intro h
    subst h
    rfl

theorem camel_snake_round_trip_witness :
    toCamel (toSnake (mkCamelConfig (JVal.jstr "https://example") (JVal.jstr "key")
        (JVal.jstr "gpt-4o") JVal.undef (JVal.jstr "be brief") (JVal.jnum 1)
        JVal.undef (JVal.jnum 800)))
      = mkCamelConfig (JVal.jstr "https://example") (JVal.jstr "key")
          (JVal.jstr "gpt-4o") JVal.undef (JVal.jstr "be brief") (JVal.jnum 1)
          JVal.undef (JVal.jnum 800) :=
  (camel_snake_round_trip (JVal.jstr "https://example") (JVal.jstr "key")
      (JVal.jstr "gpt-4o") JVal.undef (JVal.jstr "be brief") (JVal.jnum 1)
      JVal.undef (JVal.jnum 800)
      (by decide) (by decide) (by decide) (by decide)
      (Or.inl rfl) (Or.inr (by decide))).1

end MCPClient
